import Mathlib

/-!
Verification development for the everFinance js-client uploader
(src/common/upload.ts). The definitions below are a shallow embedding of the
Uploader class methods; external collaborators that are not part of the given
sources (the stream chunker, Utils.checkAndThrow, the async-retry library and
the promise pool) are modelled from the specification, as marked in their
doc comments.
-/

namespace JsClient

/-- Body of an HTTP response as the uploader observes it: raw payload bytes,
the object holding just the item id (written by the 201 branch of
transactionUploader), a list of integer chunk offsets (presence query), or
nothing. -/
inductive RespBody where
  | raw (bytes : String)
  | idObj (id : String)
  | offsets (l : List Nat)
  | empty
deriving DecidableEq

/-- An HTTP response as consumed by upload.ts: status code, status text and
body (the AxiosResponse fields the uploader reads). -/
structure Resp where
  status : Nat
  statusText : String
  body : RespBody
deriving DecidableEq

/-- Errors thrown by upload.ts, one constructor per distinct throw site,
carrying the data interpolated into the message. -/
inductive UploadError where
  | insufficientFunds
  | dataItemFailure (status : Nat) (statusText : String)
  | invalidChunkSize
  | batchSizeTooSmall
  | httpError (status : Nat) (context : String)
deriving DecidableEq

/-- The message string of each error, as built at the corresponding throw site
in upload.ts; concurrentUploader dispatches on this string (lines 93 and 111). -/
def UploadError.message : UploadError → String
  | .insufficientFunds => "Not enough funds to send data"
  | .dataItemFailure status statusText =>
      "whilst uploading DataItem: " ++ toString status ++ " " ++ statusText
  | .invalidChunkSize => "Invalid chunk size - must be betweem 100,000 and 190,000,000 bytes"
  | .batchSizeTooSmall => "batch size too small! must be >=1"
  | .httpError status context => "HTTP Error: " ++ context ++ ": " ++ toString status

/-- Chunking decision of transactionUploader (upload.ts line 59): the force
flag is set or the raw byte length is above 50,000,000. -/
def txUsesChunking (forceUseChunking : Bool) (byteLength : Nat) : Bool :=
  forceUseChunking || decide (byteLength > 50000000)

/-- The status switch ending transactionUploader (upload.ts lines 69-80):
201 replaces the body with the id object; 402 throws the insufficient funds
error; any other status of at least 400 throws a DataItem failure carrying the
status and status text; anything else returns the response unchanged. -/
def handleTxStatus (id : String) (res : Resp) : Except UploadError Resp :=
  if res.status = 201 then .ok { res with body := .idObj id }
  else if res.status = 402 then .error .insufficientFunds
  else if res.status ≥ 400 then .error (.dataItemFailure res.status res.statusText)
  else .ok res

/-- transactionUploader (upload.ts lines 56-81) against abstract transport
results: picks the chunked path exactly when txUsesChunking holds (consuming
chunkedResult, the outcome of chunkedTransactionUploader), otherwise the
direct POST of the whole payload (consuming directResp), then runs the status
switch on whichever response came back. -/
def transactionUploader (forceUseChunking : Bool) (byteLength : Nat) (id : String)
    (chunkedResult : Except UploadError Resp) (directResp : Resp) : Except UploadError Resp :=
  match (if txUsesChunking forceUseChunking byteLength then chunkedResult else .ok directResp) with
  | .error e => .error e
  | .ok res => handleTxStatus id res

/-- A sample response with a given status, used to instantiate witnesses. -/
def respOf (status : Nat) : Resp :=
  { status := status, statusText := "st", body := .empty }

/-- C7: transactionUploader delegates to the chunked uploader exactly when the
force-chunking flag is set or the raw byte length exceeds 50,000,000: on the
chunked path the direct response is irrelevant, on the direct path the chunked
result is irrelevant, and a length of exactly 50,000,000 with the flag unset
takes the direct path. -/
theorem c7_chunking_threshold (force : Bool) (len : Nat) (id : String)
    (cr cr' : Except UploadError Resp) (r r' : Resp) :
    (txUsesChunking force len = true ↔ (force = true ∨ 50000000 < len))
    ∧ (txUsesChunking force len = true →
        transactionUploader force len id cr r = transactionUploader force len id cr r')
    ∧ (txUsesChunking force len = false →
        transactionUploader force len id cr r = transactionUploader force len id cr' r)
    ∧ txUsesChunking false 50000000 = false := by
  refine ⟨?_, ?_, ?_, ?_⟩
  · simp [txUsesChunking]
  · intro h
    simp [transactionUploader, h]
  · intro h
    simp [transactionUploader, h]
  · decide

/-- Witness for C7 at concrete inputs: with the flag set the direct response
does not matter, and at length exactly 50,000,000 without the flag the chunked
result does not matter. -/
theorem c7_witness :
    transactionUploader true 0 "x" (.ok (respOf 200)) (respOf 201)
      = transactionUploader true 0 "x" (.ok (respOf 200)) (respOf 500)
    ∧ transactionUploader false 50000000 "x" (.ok (respOf 200)) (respOf 201)
      = transactionUploader false 50000000 "x" (.ok (respOf 500)) (respOf 201) :=
  ⟨(c7_chunking_threshold true 0 "x" (.ok (respOf 200)) (.ok (respOf 200))
      (respOf 201) (respOf 500)).2.1 (by decide),
   (c7_chunking_threshold false 50000000 "x" (.ok (respOf 200)) (.ok (respOf 500))
      (respOf 201) (respOf 201)).2.2.1 (by decide)⟩

/-- C8: on the direct upload path (flag unset, small payload), the response
status is mapped as follows: 201 returns success with the body replaced by the
id object; 402 raises the insufficient funds error; any other status of at
least 400 raises a failure carrying the status and status text; any remaining
status returns the raw response as success. -/
theorem c8_direct_response_mapping (id : String) (res : Resp) (cr : Except UploadError Resp) :
    (res.status = 201 →
      transactionUploader false 0 id cr res = .ok { res with body := .idObj id })
    ∧ (res.status = 402 →
      transactionUploader false 0 id cr res = .error .insufficientFunds)
    ∧ (res.status ≠ 201 → res.status ≠ 402 → 400 ≤ res.status →
      transactionUploader false 0 id cr res = .error (.dataItemFailure res.status res.statusText))
    ∧ (res.status ≠ 201 → res.status ≠ 402 → res.status < 400 →
      transactionUploader false 0 id cr res = .ok res) := by
  refine ⟨?_, ?_, ?_, ?_⟩
  · intro h
    simp [transactionUploader, txUsesChunking, handleTxStatus, h]
  · intro h
    simp [transactionUploader, txUsesChunking, handleTxStatus, h]
  · intro h1 h2 h3
    simp [transactionUploader, txUsesChunking, handleTxStatus, h1, h2, h3]
  · intro h1 h2 h3
    simp [transactionUploader, txUsesChunking, handleTxStatus, h1, h2, Nat.not_le.mpr h3]

/-- Witness for C8 at concrete statuses 201, 402, 500 and 200. -/
theorem c8_witness :
    transactionUploader false 0 "x" (.ok (respOf 200)) (respOf 201)
      = .ok { respOf 201 with body := .idObj "x" }
    ∧ transactionUploader false 0 "x" (.ok (respOf 200)) (respOf 402)
      = .error .insufficientFunds
    ∧ transactionUploader false 0 "x" (.ok (respOf 200)) (respOf 500)
      = .error (.dataItemFailure 500 "st")
    ∧ transactionUploader false 0 "x" (.ok (respOf 200)) (respOf 200)
      = .ok (respOf 200) :=
  ⟨(c8_direct_response_mapping "x" (respOf 201) (.ok (respOf 200))).1 (by decide),
   (c8_direct_response_mapping "x" (respOf 402) (.ok (respOf 200))).2.1 (by decide),
   (c8_direct_response_mapping "x" (respOf 500) (.ok (respOf 200))).2.2.1
     (by decide) (by decide) (by decide),
   (c8_direct_response_mapping "x" (respOf 200) (.ok (respOf 200))).2.2.2
     (by decide) (by decide) (by decide)⟩

/-- Candidate chunk offsets enumerated by chunkedTransactionUploader when it
computes the missing list (upload.ts lines 203-212): the remainder and the
full-chunk count, then the offsets i * chunkSize for i = 0 .. chunks. -/
def candidateOffsets (size chunkSize : Nat) : List Nat :=
  let remainder := size % chunkSize
  let chunks := (size - remainder) / chunkSize
  (List.range (chunks + 1)).map (fun i => i * chunkSize)

/-- The missing offset list (upload.ts lines 206-212): candidate offsets not
contained in the server reported presence list. -/
def missingOffsets (size chunkSize : Nat) (present : List Nat) : List Nat :=
  (candidateOffsets size chunkSize).filter (fun s => !(present.contains s))

/-- Number of chunks the splitter emits for a given item size. -/
def chunkCount (size chunkSize : Nat) : Nat := (size + chunkSize - 1) / chunkSize

/-- Modelled from the spec: the stream chunker module (imported as chunker in
upload.ts) is not part of the given sources. Per spec sections 3 and 4.1 it
emits, in offset order, chunks of exactly chunkSize bytes with the final chunk
truncated to the remainder, covering the source exactly once; chunk i starts
at offset i * chunkSize and has length min chunkSize (size - i * chunkSize). -/
def chunkLengths (size chunkSize : Nat) : List Nat :=
  (List.range (chunkCount size chunkSize)).map (fun i => min chunkSize (size - i * chunkSize))

/-- Offsets at which the streaming loop of chunkedTransactionUploader sees
each successive chunk: the loop starts at a running offset and advances it by
the length of each chunk (upload.ts lines 215 and 249). -/
def visitedOffsets : List Nat → Nat → List Nat
  | [], _ => []
  | len :: rest, offset => offset :: visitedOffsets rest (offset + len)

/-- The offsets of the chunks actually produced for an item of a given size,
as seen by the streaming loop starting at offset 0. -/
def chunkStreamOffsets (size chunkSize : Nat) : List Nat :=
  visitedOffsets (chunkLengths size chunkSize) 0

/-- One request issued by chunkedTransactionUploader together with the status
the server answered to it. -/
inductive TraceEntry where
  | getInfo (id : String) (size status : Nat)
  | postChunk (id : String) (offset status : Nat)
  | finalize (id : String) (status : Nat)
deriving DecidableEq

/-- Abstract server behaviour for one run: status of the presence query, the
offsets it reports as already stored, the status answered to the chunk POST
at each offset, and the status of the finalize POST. -/
structure ChunkServer where
  infoStatus : Nat
  present : List Nat
  chunkStatus : Nat → Nat
  finalizeStatus : Nat

/-- Modelled from the spec: Utils.checkAndThrow (src/common/utils is not part
of the given sources) succeeds on HTTP statuses 200 and 201 and on any
explicitly excepted status, and otherwise raises an HTTP error carrying the
context string (spec section 4.3: any other non-success status yields a fatal
failure). -/
def checkAndThrowOk (status : Nat) (exceptions : List Nat) : Bool :=
  status == 200 || status == 201 || exceptions.contains status

/-- Flushing step of the windowed batching (upload.ts lines 239-242): when the
in-flight list has reached batchSize it is awaited as a whole and cleared. -/
def flushIfFull (batchSize : Nat) (processing : List Nat) : List Nat :=
  if processing.length = batchSize then [] else processing

/-- Result of the streaming loop: the chunk POST requests issued (in order),
the in-flight count after each iteration, and the final in-flight list. -/
structure LoopOut where
  trace : List TraceEntry
  sizes : List Nat
  processing : List Nat

/-- The streaming loop of chunkedTransactionUploader (upload.ts lines
233-250): for each chunk, first await and clear the in-flight window if it is
full, then, if the running offset is in the missing list, call promiseFactory
(which issues the POST for that offset at once) and push the promise; finally
advance the running offset by the length of the chunk. -/
def chunkLoop (id : String) (chunkStatus : Nat → Nat) (batchSize : Nat) (missing : List Nat) :
    List Nat → Nat → List Nat → LoopOut
  | [], _, processing => ⟨[], [], processing⟩
  | len :: rest, offset, processing =>
    if missing.contains offset then
      ⟨.postChunk id offset (chunkStatus offset) ::
         (chunkLoop id chunkStatus batchSize missing rest (offset + len)
           (flushIfFull batchSize processing ++ [offset])).trace,
       (flushIfFull batchSize processing ++ [offset]).length ::
         (chunkLoop id chunkStatus batchSize missing rest (offset + len)
           (flushIfFull batchSize processing ++ [offset])).sizes,
       (chunkLoop id chunkStatus batchSize missing rest (offset + len)
         (flushIfFull batchSize processing ++ [offset])).processing⟩
    else
      ⟨(chunkLoop id chunkStatus batchSize missing rest (offset + len)
          (flushIfFull batchSize processing)).trace,
       (flushIfFull batchSize processing).length ::
         (chunkLoop id chunkStatus batchSize missing rest (offset + len)
           (flushIfFull batchSize processing)).sizes,
       (chunkLoop id chunkStatus batchSize missing rest (offset + len)
         (flushIfFull batchSize processing)).processing⟩

/-- Terminal value of a chunked upload: the fast path return when the
presence query already answers 201, or the finalize response. -/
inductive ChunkOutcome where
  | alreadyComplete
  | finalized (status : Nat)
deriving DecidableEq

/-- Observable result of one chunkedTransactionUploader run: the requests
issued (with the statuses answered), the in-flight counts after each loop
iteration, and the outcome. -/
structure RunResult where
  trace : List TraceEntry
  sizes : List Nat
  outcome : Except UploadError ChunkOutcome

/-- chunkedTransactionUploader (upload.ts lines 173-263): validates chunkSize
and batchSize before any request; issues the presence query, returning at once
on 201 and raising through checkAndThrow on a non-success status; computes the
missing offsets from the reported presence list; streams the chunks through
the windowed loop (the status a chunk POST receives is recorded but, exactly
as in the source, never inspected: promiseFactory resolves with whatever
response arrives); finally issues the finalize POST, raising the insufficient
funds error on 402 and an HTTP error on any other non-success status. -/
def chunkedTransactionUploader (id : String) (size chunkSize batchSize : Nat)
    (server : ChunkServer) : RunResult :=
  if chunkSize < 1000000 ∨ 190000000 < chunkSize then
    ⟨[], [], .error .invalidChunkSize⟩
  else if batchSize < 1 then
    ⟨[], [], .error .batchSizeTooSmall⟩
  else if server.infoStatus = 201 then
    ⟨[.getInfo id size server.infoStatus], [], .ok .alreadyComplete⟩
  else if !(checkAndThrowOk server.infoStatus []) then
    ⟨[.getInfo id size server.infoStatus], [],
     .error (.httpError server.infoStatus "Getting chunk info")⟩
  else
    let loopOut := chunkLoop id server.chunkStatus batchSize
      (missingOffsets size chunkSize server.present) (chunkLengths size chunkSize) 0 []
    let trace := .getInfo id size server.infoStatus ::
      loopOut.trace ++ [.finalize id server.finalizeStatus]
    if server.finalizeStatus = 402 then
      ⟨trace, loopOut.sizes, .error .insufficientFunds⟩
    else if !(checkAndThrowOk server.finalizeStatus [201]) then
      ⟨trace, loopOut.sizes, .error (.httpError server.finalizeStatus "Finalising upload")⟩
    else
      ⟨trace, loopOut.sizes, .ok (.finalized server.finalizeStatus)⟩

/-- Settled or forever-unsettled state of a JS Promise. -/
inductive PromiseState (α : Type) where
  | resolved (value : α)
  | pending
deriving DecidableEq

/-- Default retries of the async-retry library (10, hence up to 11 attempts).
Relevant because promiseFactory in upload.ts (lines 181-194) sequences its
options literal after the retry call with the comma operator instead of
passing it as an argument, so the library defaults apply. -/
def asyncRetryDefaultRetries : Nat := 10

/-- Modelled from the spec: the retry executor (the async-retry library, not
part of the given sources), spec section 4.2: runs attempts until one succeeds
or the retries are exhausted, returning the first success together with the
number of attempts made. An attempt returning none is a network level
rejection of the POST; an attempt returning some response is a POST whose HTTP
response arrived, whatever its status. -/
def retryRunAux (attempt : Nat → Option Resp) : Nat → Nat → Option Resp × Nat
  | 0, k =>
    match attempt k with
    | some r => (some r, k + 1)
    | none => (none, k + 1)
  | remaining + 1, k =>
    match attempt k with
    | some r => (some r, k + 1)
    | none => retryRunAux attempt remaining (k + 1)

/-- promiseFactory (upload.ts lines 181-194): wraps the chunk POST in retry.
The executor of the constructed Promise only ever resolves it, from the then
branch of a POST whose HTTP response arrived (any status, 402 included); the
rejection retry produces when every attempt fails is handled nowhere, so in
that case the constructed Promise never settles. The options literal is dead
code (comma operator), so the default retries apply. Returns the final promise
state and the number of POST attempts made. -/
def promiseFactoryResult (attempt : Nat → Option Resp) : PromiseState Resp × Nat :=
  match retryRunAux attempt asyncRetryDefaultRetries 0 with
  | (some r, n) => (.resolved r, n)
  | (none, n) => (.pending, n)

/-- A sample server: presence query answering 200 with no stored offsets,
chunk POSTs answered 402 at offset 0 and 200 elsewhere, finalize answered
201. -/
def exServer : ChunkServer :=
  { infoStatus := 200, present := [],
    chunkStatus := fun o => if o = 0 then 402 else 200, finalizeStatus := 201 }

/-- For a chunk width of at least one byte, an empty item yields no chunks. -/
theorem chunkCount_zero (c : Nat) (hc : 1 ≤ c) : chunkCount 0 c = 0 := by
  unfold chunkCount
  exact Nat.div_eq_of_lt (by omega)

/-- A nonempty item no larger than the chunk width yields exactly one chunk. -/
theorem chunkCount_small (size c : Nat) (h1 : 1 ≤ size) (h2 : size ≤ c) :
    chunkCount size c = 1 := by
  unfold chunkCount
  exact Nat.div_eq_of_lt_le (by omega) (by omega)

/-- An item larger than the chunk width yields one more chunk than the item
shortened by one chunk width. -/
theorem chunkCount_step (size c : Nat) (hc : 1 ≤ c) (h : c < size) :
    chunkCount size c = chunkCount (size - c) c + 1 := by
  unfold chunkCount
  have h1 : size + c - 1 = (size - c + c - 1) + c := by omega
  rw [h1, Nat.add_div_right _ (by omega)]

/-- Splitting an item larger than the chunk width emits one full chunk and
then splits the rest. -/
theorem chunkLengths_cons (size c : Nat) (hc : 1 ≤ c) (h : c < size) :
    chunkLengths size c = c :: chunkLengths (size - c) c := by
  unfold chunkLengths
  rw [chunkCount_step size c hc h, List.range_succ_eq_map]
  simp only [List.map_cons, List.map_map]
  refine List.cons_eq_cons.mpr ⟨?_, ?_⟩
  · simp only [Nat.zero_mul, Nat.sub_zero]
    omega
  · refine List.map_congr_left fun i _ => ?_
    simp only [Function.comp_apply]
    have hs : Nat.succ i * c = i * c + c := Nat.succ_mul i c
    omega

/-- The offsets visited by the streaming loop over the chunk stream of an item
of a given size, starting at a base offset, are exactly base + i * chunkSize
for i below the chunk count. -/
theorem visitedOffsets_chunkLengths (c : Nat) (hc : 1 ≤ c) :
    ∀ size b, visitedOffsets (chunkLengths size c) b
      = (List.range (chunkCount size c)).map (fun i => b + i * c) := by
  intro size
  induction size using Nat.strong_induction_on with
  | _ size ih =>
    intro b
    rcases Nat.eq_zero_or_pos size with h0 | h0
    · subst h0
      simp [chunkLengths, chunkCount_zero c hc, visitedOffsets]
    · rcases Nat.lt_or_ge c size with hlt | hge
      · rw [chunkLengths_cons size c hc hlt]
        rw [visitedOffsets]
        rw [ih (size - c) (by omega) (b + c)]
        rw [chunkCount_step size c hc hlt, List.range_succ_eq_map]
        simp only [List.map_cons, List.map_map]
        refine List.cons_eq_cons.mpr ⟨?_, ?_⟩
        · omega
        · refine List.map_congr_left fun i _ => ?_
          simp only [Function.comp_apply]
          have hs : Nat.succ i * c = i * c + c := Nat.succ_mul i c
          omega
      · have hcount : chunkCount size c = 1 := chunkCount_small size c (by omega) hge
        unfold chunkLengths
        rw [hcount]
        have h1 : List.range 1 = [0] := rfl
        simp [visitedOffsets, h1]

/-- Every offset the streaming loop visits (from base 0) is strictly below
the item size and appears among the candidate offsets that the missing list
is computed from. -/
theorem chunkStreamOffsets_spec (size c : Nat) (hc : 1 ≤ c) :
    ∀ o ∈ chunkStreamOffsets size c, o < size ∧ o ∈ candidateOffsets size c := by
  intro o ho
  unfold chunkStreamOffsets at ho
  rw [visitedOffsets_chunkLengths c hc size 0] at ho
  simp only [List.mem_map, List.mem_range] at ho
  obtain ⟨i, hi, rfl⟩ := ho
  have hpos : 1 ≤ size := by
    by_contra hsz
    have : size = 0 := by omega
    rw [this, chunkCount_zero c hc] at hi
    omega
  have hmul : (i + 1) * c ≤ size + c - 1 := by
    have := (Nat.le_div_iff_mul_le (k := c) (by omega)).mp (by omega : i + 1 ≤ chunkCount size c)
    simpa [chunkCount] using this
  have hsucc : (i + 1) * c = i * c + c := Nat.succ_mul i c
  have hlt : i * c < size := by omega
  refine ⟨by omega, ?_⟩
  have hdm := Nat.div_add_mod size c
  have hsub : size - size % c = c * (size / c) := by omega
  have hle : i ≤ size / c := (Nat.le_div_iff_mul_le (by omega)).mpr (by omega)
  simp only [candidateOffsets, List.mem_map, List.mem_range]
  refine ⟨i, ?_, by omega⟩
  rw [hsub, Nat.mul_div_cancel_left _ (by omega : 0 < c)]
  omega

/-- The chunk POSTs issued by the streaming loop are exactly the visited
offsets that lie in the missing list, in visiting order, each issued once with
the status the server answers at that offset. -/
theorem chunkLoop_trace (id : String) (cs : Nat → Nat) (b : Nat) (missing : List Nat) :
    ∀ lens off p, (chunkLoop id cs b missing lens off p).trace
      = ((visitedOffsets lens off).filter (fun o => missing.contains o)).map
          (fun o => TraceEntry.postChunk id o (cs o)) := by
  intro lens
  induction lens with
  | nil =>
    intro off p
    rfl
  | cons len rest ih =>
    intro off p
    by_cases hm : off ∈ missing
    · simp [chunkLoop, visitedOffsets, hm, ih]
    · simp [chunkLoop, visitedOffsets, hm, ih]

/-- Starting from an in-flight list within the window, every in-flight count
recorded by the streaming loop stays within batchSize. -/
theorem chunkLoop_sizes_le (id : String) (cs : Nat → Nat) (b : Nat) (missing : List Nat)
    (hb : 1 ≤ b) :
    ∀ lens off p, p.length ≤ b →
      ∀ s ∈ (chunkLoop id cs b missing lens off p).sizes, s ≤ b := by
  intro lens
  induction lens with
  | nil =>
    intro off p hp s hs
    simp [chunkLoop] at hs
  | cons len rest ih =>
    intro off p hp s hs
    have hf : (flushIfFull b p).length < b := by
      unfold flushIfFull
      split
      · simpa using hb
      · omega
    by_cases hm : missing.contains off
    · simp only [chunkLoop, hm, if_pos] at hs
      simp only [List.mem_cons] at hs
      rcases hs with hs | hs
      · subst hs
        simp
        omega
      · exact ih (off + len) (flushIfFull b p ++ [off]) (by simp; omega) s hs
    · simp only [chunkLoop, hm, if_neg, Bool.false_eq_true, not_false_iff] at hs
      simp only [List.mem_cons] at hs
      rcases hs with hs | hs
      · subst hs
        omega
      · exact ih (off + len) (flushIfFull b p) (by omega) s hs

/-- With a valid configuration and a presence query answering 200, the run
issues the presence query, then the loop POSTs, then finalize, and its outcome
depends only on the finalize status. -/
theorem chunkedTransactionUploader_run (id : String) (size c b : Nat) (server : ChunkServer)
    (hc : ¬(c < 1000000 ∨ 190000000 < c)) (hb : ¬(b < 1)) (hinfo : server.infoStatus = 200) :
    chunkedTransactionUploader id size c b server =
      ⟨.getInfo id size 200 ::
         (chunkLoop id server.chunkStatus b (missingOffsets size c server.present)
            (chunkLengths size c) 0 []).trace ++ [.finalize id server.finalizeStatus],
       (chunkLoop id server.chunkStatus b (missingOffsets size c server.present)
            (chunkLengths size c) 0 []).sizes,
       if server.finalizeStatus = 402 then .error .insufficientFunds
       else if !(checkAndThrowOk server.finalizeStatus [201]) then
         .error (.httpError server.finalizeStatus "Finalising upload")
       else .ok (.finalized server.finalizeStatus)⟩ := by
  by_cases hfin : server.finalizeStatus = 402
  · simp [chunkedTransactionUploader, hc, hb, hinfo, checkAndThrowOk, hfin]
  · by_cases h200 : server.finalizeStatus = 200
    · simp [chunkedTransactionUploader, hc, hb, hinfo, checkAndThrowOk, hfin, h200]
    · by_cases h201 : server.finalizeStatus = 201
      · simp [chunkedTransactionUploader, hc, hb, hinfo, checkAndThrowOk, hfin, h200, h201]
      · simp [chunkedTransactionUploader, hc, hb, hinfo, checkAndThrowOk, hfin, h200, h201]

/-- C1 counterexample: for size 2,000,000 and chunk size 1,000,000 (the chunk
size divides the size), the candidate offset list the code derives is
0, 1,000,000, 2,000,000 — its last element equals the item size, so the
candidate offsets are not all strictly less than the size as claimed. -/
theorem c1_counterexample :
    candidateOffsets 2000000 1000000 = [0, 1000000, 2000000]
    ∧ ¬(∀ o ∈ candidateOffsets 2000000 1000000, o < 2000000) := by
  constructor
  · rfl
  · decide

/-- C1 (amended): the candidate offsets are 0, c, ..., floor(size / c) * c,
one more than the produced chunks when c divides the size; nevertheless the
chunk POSTs issued are exactly the produced chunk offsets absent from the
presence list, in offset order, and every produced chunk offset is strictly
below the item size (the spurious candidate never matches a produced chunk). -/
theorem c1_amended (id : String) (size c b : Nat) (server : ChunkServer)
    (hc1 : 1000000 ≤ c) (hc2 : c ≤ 190000000) (hb : 1 ≤ b)
    (hinfo : server.infoStatus = 200) :
    (chunkedTransactionUploader id size c b server).trace =
      .getInfo id size 200 ::
        ((chunkStreamOffsets size c).filter (fun o => !(server.present.contains o))).map
          (fun o => .postChunk id o (server.chunkStatus o))
        ++ [.finalize id server.finalizeStatus]
    ∧ (chunkStreamOffsets size c).all (fun o => decide (o < size)) = true := by
  have hc : ¬(c < 1000000 ∨ 190000000 < c) := by omega
  have hbb : ¬(b < 1) := by omega
  constructor
  · rw [chunkedTransactionUploader_run id size c b server hc hbb hinfo]
    unfold chunkStreamOffsets
    dsimp only
    rw [chunkLoop_trace]
    refine congrArg
      (fun l => TraceEntry.getInfo id size 200 ::
        l ++ [TraceEntry.finalize id server.finalizeStatus]) ?_
    refine congrArg (List.map _) ?_
    apply List.filter_congr
    intro o ho
    have hcand : o ∈ candidateOffsets size c :=
      (chunkStreamOffsets_spec size c (by omega) o ho).2
    by_cases hp : o ∈ server.present
    · have h1 : (missingOffsets size c server.present).contains o = false := by
        simp [missingOffsets, List.contains, hp]
      have h2 : server.present.contains o = true := by
        simp [List.contains, hp]
      rw [h1, h2]
      rfl
    · have h1 : (missingOffsets size c server.present).contains o = true := by
        simp [missingOffsets, List.contains, hp, hcand]
      have h2 : server.present.contains o = false := by
        simp [List.contains, hp]
      rw [h1, h2]
      rfl
  · rw [List.all_eq_true]
    intro o ho
    have h := (chunkStreamOffsets_spec size c (by omega) o ho).1
    simpa using h

/-- Witness for C1 (amended) at a concrete run: item of 2,000,000 bytes with
chunk size 1,000,000, batch size 5 and an empty presence set. -/
theorem c1_amended_witness :
    (chunkedTransactionUploader "tx" 2000000 1000000 5 exServer).trace =
      .getInfo "tx" 2000000 200 ::
        ((chunkStreamOffsets 2000000 1000000).filter
            (fun o => !(exServer.present.contains o))).map
          (fun o => .postChunk "tx" o (exServer.chunkStatus o))
        ++ [.finalize "tx" exServer.finalizeStatus]
    ∧ (chunkStreamOffsets 2000000 1000000).all (fun o => decide (o < 2000000)) = true :=
  c1_amended "tx" 2000000 1000000 5 exServer (by decide) (by decide) (by decide) rfl

/-- C2 counterexample: with the server answering 402 to the chunk POST at
offset 0, a further chunk POST (at offset 1,000,000) is still issued and the
whole operation finishes successfully (the finalize answering 201), instead
of aborting with the insufficient funds error as the claim states. -/
theorem c2_counterexample :
    (chunkedTransactionUploader "tx" 2000000 1000000 5 exServer).trace =
      [.getInfo "tx" 2000000 200, .postChunk "tx" 0 402,
       .postChunk "tx" 1000000 200, .finalize "tx" 201]
    ∧ (chunkedTransactionUploader "tx" 2000000 1000000 5 exServer).outcome
        = .ok (.finalized 201) :=
  ⟨rfl, rfl⟩

/-- C2 (amended): a chunk POST whose HTTP response arrives (any status, 402
included) is not retried — the chunk promise resolves on the first attempt
with that response — but chunk response statuses never influence the outcome
of the run, and the insufficient funds error arises from the finalize call
answering 402, not from chunk uploads. -/
theorem c2_amended (id : String) (size c b : Nat) (server : ChunkServer)
    (f : Nat → Nat) (resp : Resp) :
    (chunkedTransactionUploader id size c b { server with chunkStatus := f }).outcome
      = (chunkedTransactionUploader id size c b server).outcome
    ∧ promiseFactoryResult (fun _ => some resp) = (.resolved resp, 1)
    ∧ (server.infoStatus = 200 → server.finalizeStatus = 402 →
        1000000 ≤ c → c ≤ 190000000 → 1 ≤ b →
        (chunkedTransactionUploader id size c b server).outcome = .error .insufficientFunds) := by
  refine ⟨?_, rfl, ?_⟩
  · unfold chunkedTransactionUploader
    by_cases h1 : c < 1000000 ∨ 190000000 < c
    · simp [h1]
    · by_cases h2 : b < 1
      · simp [h1, h2]
      · by_cases h3 : server.infoStatus = 201
        · simp [h1, h2, h3]
        · by_cases h4 : checkAndThrowOk server.infoStatus [] = true
          · by_cases h5 : server.finalizeStatus = 402
            · simp [h1, h2, h3, h4, h5]
            · by_cases h6 : checkAndThrowOk server.finalizeStatus [201] = true
              · simp [h1, h2, h3, h4, h5, h6]
              · simp [h1, h2, h3, h4, h5, h6]
          · simp [h1, h2, h3, h4]
  · intro h1 h2 h3 h4 h5
    rw [chunkedTransactionUploader_run id size c b server (by omega) (by omega) h1]
    simp [h2]

/-- A sample server whose finalize call answers 402. -/
def exServer402 : ChunkServer :=
  { infoStatus := 200, present := [], chunkStatus := fun _ => 200, finalizeStatus := 402 }

/-- Witness for C2 (amended) at concrete inputs: chunk statuses changed
wholesale do not change the outcome, a 402 chunk response resolves in one
attempt, and a 402 finalize yields the insufficient funds error. -/
theorem c2_amended_witness :
    (chunkedTransactionUploader "tx" 2000000 1000000 5
        { exServer402 with chunkStatus := fun _ => 500 }).outcome
      = (chunkedTransactionUploader "tx" 2000000 1000000 5 exServer402).outcome
    ∧ promiseFactoryResult (fun _ => some (respOf 402)) = (.resolved (respOf 402), 1)
    ∧ (chunkedTransactionUploader "tx" 2000000 1000000 5 exServer402).outcome
        = .error .insufficientFunds :=
  ⟨(c2_amended "tx" 2000000 1000000 5 exServer402 (fun _ => 500) (respOf 402)).1,
   (c2_amended "tx" 2000000 1000000 5 exServer402 (fun _ => 500) (respOf 402)).2.1,
   (c2_amended "tx" 2000000 1000000 5 exServer402 (fun _ => 500) (respOf 402)).2.2
     rfl rfl (by decide) (by decide) (by decide)⟩

/-- C3 (code bug): when every POST attempt for a chunk fails at the network
level, the promise promiseFactory builds makes 11 attempts (the dead options
literal notwithstanding) and then never settles — the upload neither succeeds
nor surfaces an error, and 11 exceeds the 3 attempts the claim states. -/
theorem c3_code_bug :
    promiseFactoryResult (fun _ => none) = (.pending, 11) ∧ 3 < 11 :=
  ⟨rfl, by omega⟩

/-- C4: throughout every run of chunkedTransactionUploader with batch size at
least 1, the in-flight chunk upload count recorded after each loop iteration
never exceeds the batch size. -/
theorem c4_inflight_bounded (id : String) (size c b : Nat) (server : ChunkServer)
    (hb : 1 ≤ b) :
    ((chunkedTransactionUploader id size c b server).sizes).all
      (fun s => decide (s ≤ b)) = true := by
  rw [List.all_eq_true]
  intro s hs
  suffices h : s ≤ b by simpa using h
  have hb0 : ¬b = 0 := by omega
  by_cases h1 : c < 1000000 ∨ 190000000 < c
  · simp [chunkedTransactionUploader, h1] at hs
  · by_cases h3 : server.infoStatus = 201
    · simp [chunkedTransactionUploader, h1, hb0, h3] at hs
    · by_cases h4 : checkAndThrowOk server.infoStatus [] = true
      · have hs' : s ∈ (chunkLoop id server.chunkStatus b
            (missingOffsets size c server.present) (chunkLengths size c) 0 []).sizes := by
          by_cases h5 : server.finalizeStatus = 402
          · simpa [chunkedTransactionUploader, h1, hb0, h3, h4, h5] using hs
          · by_cases h6 : checkAndThrowOk server.finalizeStatus [201] = true
            · simpa [chunkedTransactionUploader, h1, hb0, h3, h4, h5, h6]
                using hs
            · simpa [chunkedTransactionUploader, h1, hb0, h3, h4, h5, h6]
                using hs
        exact chunkLoop_sizes_le id server.chunkStatus b
          (missingOffsets size c server.present) hb (chunkLengths size c) 0 []
          (by simp) s hs'
      · simp [chunkedTransactionUploader, h1, hb0, h3, h4] at hs

/-- Witness for C4 at a concrete run with batch size 1 over two chunks. -/
theorem c4_witness :
    ((chunkedTransactionUploader "tx" 2000000 1000000 1 exServer).sizes).all
      (fun s => decide (s ≤ 1)) = true :=
  c4_inflight_bounded "tx" 2000000 1000000 1 exServer (by decide)

/-- C9: with a chunk size below 1,000,000 or above 190,000,000, or a batch
size below 1, chunkedTransactionUploader raises an invalid configuration
error with an empty request trace — nothing is uploaded and no network
request is issued. -/
theorem c9_invalid_config (id : String) (size c b : Nat) (server : ChunkServer)
    (h : c < 1000000 ∨ 190000000 < c ∨ b < 1) :
    (chunkedTransactionUploader id size c b server).trace = []
    ∧ ((chunkedTransactionUploader id size c b server).outcome = .error .invalidChunkSize
       ∨ (chunkedTransactionUploader id size c b server).outcome = .error .batchSizeTooSmall) := by
  by_cases h1 : c < 1000000 ∨ 190000000 < c
  · exact ⟨by simp [chunkedTransactionUploader, h1],
      Or.inl (by simp [chunkedTransactionUploader, h1])⟩
  · have h2 : b < 1 := by
      rcases h with h | h | h
      · exact absurd (Or.inl h) h1
      · exact absurd (Or.inr h) h1
      · exact h
    exact ⟨by simp [chunkedTransactionUploader, h1, h2],
      Or.inr (by simp [chunkedTransactionUploader, h1, h2])⟩

/-- Witness for C9 at the concrete inputs named by the claim: chunk size
500,000 (below the minimum) and batch size 0. -/
theorem c9_witness :
    ((chunkedTransactionUploader "tx" 100 500000 5 exServer).trace = []
      ∧ ((chunkedTransactionUploader "tx" 100 500000 5 exServer).outcome
            = .error .invalidChunkSize
         ∨ (chunkedTransactionUploader "tx" 100 500000 5 exServer).outcome
            = .error .batchSizeTooSmall))
    ∧ ((chunkedTransactionUploader "tx" 100 25000000 0 exServer).trace = []
      ∧ ((chunkedTransactionUploader "tx" 100 25000000 0 exServer).outcome
            = .error .invalidChunkSize
         ∨ (chunkedTransactionUploader "tx" 100 25000000 0 exServer).outcome
            = .error .batchSizeTooSmall)) :=
  ⟨c9_invalid_config "tx" 100 500000 5 exServer (by omega),
   c9_invalid_config "tx" 100 25000000 0 exServer (by omega)⟩

/-- The insufficient funds message string that concurrentUploader compares
caught error messages against (upload.ts lines 93 and 111). -/
def insufficientFundsMsg : String := "Not enough funds to send data"

/-- An error as caught by the JS catch blocks of concurrentUploader: either an
error thrown by the upload path, or a TypeError raised by the runtime (such as
calling an undefined callback). -/
inductive JsError where
  | uploadErr (e : UploadError)
  | typeError (msg : String)
deriving DecidableEq

/-- The message of a caught error. -/
def JsError.message : JsError → String
  | .uploadErr e => e.message
  | .typeError m => m

/-- The JS test i % concurrency == 0 for a nonnegative index i (upload.ts
line 102): false when concurrency is 0 (the JS remainder is NaN); otherwise
the JS remainder, which for a nonnegative dividend agrees with the Euclidean
remainder. -/
def jsModIsZero (i : Nat) (concurrency : Int) : Bool :=
  decide (concurrency ≠ 0) && decide ((i : Int) % concurrency = 0)

/-- One attempt of the process callback body (upload.ts lines 100-115): run
the item upload; on success, when i % concurrency == 0, call logFunction —
which raises a TypeError when no logFunction argument was supplied — then
return the item result; an error thrown by the upload reaches the catch block
unchanged. -/
def attemptOnce (hasLogFunction : Bool) (concurrency : Int) (i : Nat)
    (upload : Except UploadError Resp) : Except JsError Resp :=
  match upload with
  | .error e => .error (.uploadErr e)
  | .ok res =>
    if jsModIsZero i concurrency && !hasLogFunction then
      .error (.typeError "logFunction is not a function")
    else .ok res

/-- Modelled from the spec: the retry executor wrapping each item (the
async-retry library, not part of the given sources; spec section 4.2), here
with its options passed as upload.ts line 117 does: up to retries + 1
attempts; an error on which the callback bails rejects immediately without
further attempts. Returns the outcome together with the number of attempts
made. -/
def retryWithBailCount (attempt : Nat → Except JsError Resp) (bails : JsError → Bool) :
    Nat → Nat → Except JsError Resp × Nat
  | 0, k =>
    match attempt k with
    | .ok r => (.ok r, k + 1)
    | .error e => (.error e, k + 1)
  | remaining + 1, k =>
    match attempt k with
    | .ok r => (.ok r, k + 1)
    | .error e =>
      if bails e then (.error e, k + 1)
      else retryWithBailCount attempt bails remaining (k + 1)

/-- Outcome and attempt count of the retry wrapper around one item (upload.ts
lines 98-118): retries 3, bailing exactly when the caught error carries the
insufficient funds message (line 111). -/
def itemRetryCount (hasLog : Bool) (conc : Int)
    (upload : Nat → Nat → Except UploadError Resp) (i : Nat) :
    Except JsError Resp × Nat :=
  retryWithBailCount (fun k => attemptOnce hasLog conc i (upload i k))
    (fun e => e.message == insufficientFundsMsg) 3 0

/-- Outcome of the retry wrapper around one item. -/
def itemRetryOutcome (hasLog : Bool) (conc : Int)
    (upload : Nat → Nat → Except UploadError Resp) (i : Nat) : Except JsError Resp :=
  (itemRetryCount hasLog conc upload i).1

/-- Whether an item outcome is a rejection carrying the insufficient funds
message — the condition on which the pool error handler rethrows (upload.ts
line 93). -/
def isIFError (r : Except JsError Resp) : Bool :=
  match r with
  | .error e => e.message == insufficientFundsMsg
  | .ok _ => false

/-- The entry an item outcome adds to the collected errors list. -/
def errPart (r : Except JsError Resp) : Option JsError :=
  match r with
  | .error e => some e
  | .ok _ => none

/-- The entry an item outcome adds to the pool results: the process callback
of concurrentUploader awaits the retry but returns undefined, so each
successful item appends one undefined entry, modelled as a unit. -/
def okPart (r : Except JsError Resp) : Option Unit :=
  match r with
  | .ok _ => some ()
  | .error _ => none

/-- Modelled from the spec: the promise pool (not part of the given sources;
spec sections 4.5 and 7) processes the items in dispatch order; the
handleError callback of concurrentUploader (upload.ts lines 91-96) records
each rejected item in the errors list, and when the rejection carries the
insufficient funds message it rethrows, which stops the pool and rejects the
whole call with that error (the errors collected so far are then discarded,
since the call throws). -/
def runItems (hasLog : Bool) (conc : Int)
    (upload : Nat → Nat → Except UploadError Resp) :
    List Nat → List JsError → List Unit → Except JsError (List JsError × List Unit)
  | [], errs, ress => .ok (errs, ress)
  | i :: rest, errs, ress =>
    match itemRetryOutcome hasLog conc upload i with
    | .ok _ => runItems hasLog conc upload rest errs (ress ++ [()])
    | .error e =>
      if e.message == insufficientFundsMsg then .error e
      else runItems hasLog conc upload rest (errs ++ [e]) ress

/-- Observable result of one concurrentUploader call: the width the pool is
configured with and the overall outcome. -/
structure BatchRun where
  width : Int
  outcome : Except JsError (List JsError × List Unit)

/-- concurrentUploader (upload.ts lines 86-122): configures the pool with
width concurrency when concurrency >= 1 and the fallback 5 otherwise
(line 90), and processes the n items through the per-item retry wrapper,
collecting errors and results. -/
def concurrentUploader (n : Nat) (conc : Int) (hasLog : Bool)
    (upload : Nat → Nat → Except UploadError Resp) : BatchRun :=
  { width := if conc ≥ 1 then conc else 5,
    outcome := runItems hasLog conc upload (List.range n) [] [] }

/-- When no item outcome rejects with the insufficient funds message, the
pool finishes, returning the accumulated errors and results extended by each
item in order. -/
theorem runItems_no_if (hasLog : Bool) (conc : Int)
    (upload : Nat → Nat → Except UploadError Resp) :
    ∀ L errs ress,
      (∀ i ∈ L, isIFError (itemRetryOutcome hasLog conc upload i) = false) →
      runItems hasLog conc upload L errs ress =
        .ok (errs ++ L.filterMap (fun i => errPart (itemRetryOutcome hasLog conc upload i)),
             ress ++ L.filterMap (fun i => okPart (itemRetryOutcome hasLog conc upload i))) := by
  intro L
  induction L with
  | nil =>
    intro errs ress hno
    simp [runItems]
  | cons i rest ih =>
    intro errs ress hno
    have hi := hno i (by simp)
    have hrest : ∀ j ∈ rest, isIFError (itemRetryOutcome hasLog conc upload j) = false :=
      fun j hj => hno j (by simp [hj])
    cases h : itemRetryOutcome hasLog conc upload i with
    | ok r =>
      simp only [runItems, h]
      rw [ih errs (ress ++ [()]) hrest]
      simp [List.filterMap_cons, errPart, okPart, h]
    | error e =>
      have hm : (e.message == insufficientFundsMsg) = false := by
        simpa [isIFError, h] using hi
      simp only [runItems, h, hm, Bool.false_eq_true, if_false]
      rw [ih (errs ++ [e]) ress hrest]
      simp [List.filterMap_cons, errPart, okPart, h]

/-- When some item outcome rejects with the insufficient funds message, the
pool call rejects with an error carrying that message. -/
theorem runItems_if (hasLog : Bool) (conc : Int)
    (upload : Nat → Nat → Except UploadError Resp) :
    ∀ L errs ress,
      (∃ i ∈ L, isIFError (itemRetryOutcome hasLog conc upload i) = true) →
      ∃ e, runItems hasLog conc upload L errs ress = .error e
        ∧ e.message = insufficientFundsMsg := by
  intro L
  induction L with
  | nil =>
    intro errs ress hex
    simp at hex
  | cons i rest ih =>
    intro errs ress hex
    cases h : itemRetryOutcome hasLog conc upload i with
    | ok r =>
      have hrest : ∃ j ∈ rest, isIFError (itemRetryOutcome hasLog conc upload j) = true := by
        obtain ⟨j, hj, hIF⟩ := hex
        rcases List.mem_cons.mp hj with rfl | hj'
        · rw [h] at hIF
          simp [isIFError] at hIF
        · exact ⟨j, hj', hIF⟩
      obtain ⟨e, he, hm⟩ := ih errs (ress ++ [()]) hrest
      exact ⟨e, by simp [runItems, h, he], hm⟩
    | error e =>
      by_cases hm : (e.message == insufficientFundsMsg) = true
      · exact ⟨e, by simp [runItems, h, hm], by simpa using hm⟩
      · have hrest : ∃ j ∈ rest, isIFError (itemRetryOutcome hasLog conc upload j) = true := by
          obtain ⟨j, hj, hIF⟩ := hex
          rcases List.mem_cons.mp hj with rfl | hj'
          · rw [h] at hIF
            simp only [isIFError] at hIF
            exact absurd hIF hm
          · exact ⟨j, hj', hIF⟩
        obtain ⟨e', he', hm'⟩ := ih (errs ++ [e]) ress hrest
        refine ⟨e', ?_, hm'⟩
        simpa [runItems, h, hm] using he'

/-- C5: a concurrentUploader call whose item outcomes never carry the
insufficient funds message returns (never raises) the errors list holding each
item terminal error in order together with the results list; when some item
outcome does carry the insufficient funds message the whole call rejects with
an error carrying that message; and an upload failing with insufficient funds
on its first attempt is bailed at once — exactly one attempt is made. -/
theorem c5_batch_outcome (n : Nat) (conc : Int) (hasLog : Bool)
    (upload : Nat → Nat → Except UploadError Resp) :
    (((List.range n).all fun i => !(isIFError (itemRetryOutcome hasLog conc upload i))) = true →
      (concurrentUploader n conc hasLog upload).outcome =
        .ok ((List.range n).filterMap (fun i => errPart (itemRetryOutcome hasLog conc upload i)),
             (List.range n).filterMap (fun i => okPart (itemRetryOutcome hasLog conc upload i))))
    ∧ (((List.range n).any fun i => isIFError (itemRetryOutcome hasLog conc upload i)) = true →
        ∃ e, (concurrentUploader n conc hasLog upload).outcome = .error e
          ∧ e.message = insufficientFundsMsg)
    ∧ (∀ i, upload i 0 = .error .insufficientFunds →
        itemRetryCount hasLog conc upload i = (.error (.uploadErr .insufficientFunds), 1)) := by
  refine ⟨?_, ?_, ?_⟩
  · intro hall
    rw [List.all_eq_true] at hall
    show runItems hasLog conc upload (List.range n) [] [] = _
    rw [runItems_no_if hasLog conc upload (List.range n) [] []
      (fun i hi => by simpa using hall i hi)]
    simp
  · intro hany
    rw [List.any_eq_true] at hany
    obtain ⟨i, hi, hIF⟩ := hany
    exact runItems_if hasLog conc upload (List.range n) [] [] ⟨i, hi, hIF⟩
  · intro i h
    have hb : ((JsError.uploadErr UploadError.insufficientFunds).message
        == insufficientFundsMsg) = true := by decide
    simp [itemRetryCount, retryWithBailCount, attemptOnce, h, hb]

/-- A sample per-item upload: item 0 succeeds with status 200 at every
attempt, every other item fails with a 500 DataItem failure at every
attempt. -/
def mixedUpload : Nat → Nat → Except UploadError Resp :=
  fun i _ => if i = 0 then .ok (respOf 200) else .error (.dataItemFailure 500 "st")

/-- A sample per-item upload failing with the insufficient funds error at
every attempt. -/
def ifUpload : Nat → Nat → Except UploadError Resp :=
  fun _ _ => .error .insufficientFunds

/-- Witness for C5 at concrete batches: a two-item batch with one plain
failure returns, a one-item batch with an insufficient funds failure rejects,
and that failure is bailed after exactly one attempt. -/
theorem c5_witness :
    (concurrentUploader 2 5 true mixedUpload).outcome =
      .ok ((List.range 2).filterMap (fun i => errPart (itemRetryOutcome true 5 mixedUpload i)),
           (List.range 2).filterMap (fun i => okPart (itemRetryOutcome true 5 mixedUpload i)))
    ∧ (∃ e, (concurrentUploader 1 5 true ifUpload).outcome = .error e
        ∧ e.message = insufficientFundsMsg)
    ∧ itemRetryCount true 5 ifUpload 0 = (.error (.uploadErr .insufficientFunds), 1) :=
  ⟨(c5_batch_outcome 2 5 true mixedUpload).1 (by decide),
   (c5_batch_outcome 1 5 true ifUpload).2.1 (by decide),
   (c5_batch_outcome 1 5 true ifUpload).2.2 0 rfl⟩

/-- C6 counterexample: with concurrency 0 the pool is configured with width 5,
not max(0, 1) = 1 as the claim states. -/
theorem c6_counterexample :
    (concurrentUploader 0 0 true mixedUpload).width = 5
    ∧ ((5 : Int) = max 0 1 → False) :=
  ⟨rfl, by decide⟩

/-- C6 (amended): the pool width equals the concurrency argument when it is at
least 1 and the fallback 5 otherwise — a concurrency of 0 or below yields a
pool of width 5, not 1; in either case the width is at least 1. -/
theorem c6_amended (n : Nat) (conc : Int) (hasLog : Bool)
    (upload : Nat → Nat → Except UploadError Resp) :
    (1 ≤ conc → (concurrentUploader n conc hasLog upload).width = conc)
    ∧ (conc < 1 → (concurrentUploader n conc hasLog upload).width = 5)
    ∧ 1 ≤ (concurrentUploader n conc hasLog upload).width := by
  refine ⟨?_, ?_, ?_⟩
  · intro h
    show (if conc ≥ 1 then conc else 5) = conc
    rw [if_pos h]
  · intro h
    show (if conc ≥ 1 then conc else 5) = 5
    rw [if_neg (by omega)]
  · show (1 : Int) ≤ (if conc ≥ 1 then conc else 5)
    split
    · omega
    · omega

/-- Witness for C6 (amended) at concurrency 7 and 0. -/
theorem c6_witness :
    (concurrentUploader 0 7 true mixedUpload).width = 7
    ∧ (concurrentUploader 0 0 true mixedUpload).width = 5 :=
  ⟨(c6_amended 0 7 true mixedUpload).1 (by decide),
   (c6_amended 0 0 true mixedUpload).2.1 (by decide)⟩

/-- C10: when no logFunction is supplied, an item at an index i with
i % concurrency == 0 (the first item, i = 0, included) whose transfer succeeds
at every attempt still ends as a TypeError rejection — each retry attempt
fails at the logFunction call after the upload completes — so the item is
recorded in the errors list and contributes no result entry. -/
theorem c10_logFunction_undefined (conc : Int) (i : Nat)
    (upload : Nat → Nat → Except UploadError Resp) (resp : Nat → Resp)
    (hmod : jsModIsZero i conc = true)
    (hok : ∀ k, upload i k = .ok (resp k)) :
    itemRetryOutcome false conc upload i
        = .error (.typeError "logFunction is not a function")
    ∧ runItems false conc upload [i] [] []
        = .ok ([.typeError "logFunction is not a function"], []) := by
  have hb : ((JsError.typeError "logFunction is not a function").message
      == insufficientFundsMsg) = false := by decide
  have hout : itemRetryOutcome false conc upload i
      = .error (.typeError "logFunction is not a function") := by
    simp [itemRetryOutcome, itemRetryCount, retryWithBailCount, attemptOnce,
      hok 0, hok 1, hok 2, hok 3, hmod, hb]
  refine ⟨hout, ?_⟩
  have hb2 : ((JsError.typeError "logFunction is not a function").message
      == insufficientFundsMsg) = false := hb
  simp [runItems, hout, hb2]

/-- Witness for C10 at the first item (index 0) of a batch with the default
concurrency 5 and a transfer succeeding with status 200. -/
theorem c10_witness :
    itemRetryOutcome false 5 (fun _ _ => .ok (respOf 200)) 0
        = .error (.typeError "logFunction is not a function")
    ∧ runItems false 5 (fun _ _ => .ok (respOf 200)) [0] [] []
        = .ok ([.typeError "logFunction is not a function"], []) :=
  c10_logFunction_undefined 5 0 (fun _ _ => .ok (respOf 200)) (fun _ => respOf 200)
    (by decide) (fun _ => rfl)

end JsClient
